import Mathlib

/-!
Shallow embedding of the cosmicproject backend: status-propagation engine,
notification dispatcher, presence registry, socket handshake middleware and
the schema hooks of the Task / Project / Notification models, together with
theorems settling the specification claims about them.

Statuses are represented as `String`, as the JavaScript source compares
string literals.  JavaScript `Math.round` on the non-negative rationals
produced by the completion computation is `⌊q + 1/2⌋`.
-/

/-- JavaScript `Math.round` on a non-negative rational: floor of `q + 1/2`. -/
def mathRound (q : ℚ) : ℤ := ⌊q + 1 / 2⌋

/-- A task document as far as the propagation engine reads it:
only the `status` string matters to the recomputation
(`allProjectTasks.filter(task => task.status === "completed")`). -/
structure TaskView where
  status : String
deriving Repr, DecidableEq

/-- The project fields written by the automatic status update of the route. -/
structure ProjView where
  status : String
  completedTasks : ℕ
  tasksCount : ℕ
  completionPercentage : ℤ
deriving Repr, DecidableEq

/-- The propagation engine: the tail of
`router.put("/tasks/:taskId/status")` that recomputes the derived fields of the parent
project from the full task set and decides the new project status.

Mirrors the source: when `allProjectTasks.length > 0` it persists
`completedTasks`, `tasksCount` and
`completionPercentage = Math.round((completed / total) * 100)`, then sets
`newProjectStatus` to `"Completed"` when all tasks are completed,
`"In Progress"` when at least one is, and `"Planning"` otherwise, persisting
it when it differs from the current status.  When the task set is empty the
whole block is skipped. -/
def propagate (p : ProjView) (tasks : List TaskView) : ProjView :=
  if tasks.length > 0 then
    let completed := (tasks.filter (fun t => t.status == "completed")).length
    let total := tasks.length
    let completionPercentage := mathRound ((completed : ℚ) / (total : ℚ) * 100)
    let p1 : ProjView :=
      { p with completedTasks := completed, tasksCount := total,
               completionPercentage := completionPercentage }
    let newProjectStatus :=
      if completed = total then "Completed"
      else if completed > 0 then "In Progress"
      else "Planning"
    if newProjectStatus ≠ p.status then { p1 with status := newProjectStatus } else p1
  else p

/-- Count of completed tasks in a task list. -/
def completedCount (tasks : List TaskView) : ℕ :=
  (tasks.filter (fun t => t.status == "completed")).length

theorem mathRound_nat (c t : ℕ) (ht : 0 < t) :
    mathRound ((c : ℚ) / (t : ℚ) * 100) = ((200 * c + t) / (2 * t) : ℕ) := by
  have ht' : (0 : ℚ) < (t : ℚ) := by exact_mod_cast ht
  rw [mathRound]
  rw [Int.floor_eq_iff]
  constructor
  · have : ((((200 * c + t) / (2 * t) : ℕ) : ℚ)) ≤ ((200 * c + t : ℕ) : ℚ) / ((2 * t : ℕ) : ℚ) := by
      apply Nat.cast_div_le
    push_cast at this ⊢
    have h2 : (c : ℚ) / t * 100 + 1 / 2 = (200 * c + t) / (2 * t) := by
      field_simp
      ring
    rw [h2]
    exact this
  · have hlt : ((200 * c + t : ℕ) : ℚ) / ((2 * t : ℕ) : ℚ) < (((200 * c + t) / (2 * t) : ℕ) : ℚ) + 1 := by
      rw [div_lt_iff₀ (by positivity)]
      push_cast
      have := (Nat.div_lt_iff_lt_mul (show 0 < 2 * t by omega)).mp
        (Nat.lt_succ_self ((200 * c + t) / (2 * t)))
      exact_mod_cast this
    push_cast at hlt ⊢
    have h2 : (c : ℚ) / t * 100 + 1 / 2 = (200 * c + t) / (2 * t) := by
      field_simp
      ring
    rw [h2]
    exact hlt

theorem propagate_pct_formula (p : ProjView) (tasks : List TaskView)
    (hlen : tasks.length > 0) :
    (propagate p tasks).completionPercentage
      = mathRound (100 * (completedCount tasks : ℚ) / (tasks.length : ℚ)) := by
  have harg : ((completedCount tasks : ℚ) / (tasks.length : ℚ) * 100)
      = 100 * (completedCount tasks : ℚ) / (tasks.length : ℚ) := by ring
  simp only [completedCount] at harg
  simp only [propagate]
  rw [if_pos hlen]
  split_ifs <;> simp [completedCount, ← harg]

/-- C1: after a propagation-engine invocation triggered by a task status
update (so the triggering task is among the tasks of the project and the set
is non-empty), the `completionPercentage` of the project equals
`round(100 * completed / total)`; the empty-set clause holds vacuously under
such a trigger. -/
theorem C1_completion_percentage (p : ProjView) (tasks : List TaskView)
    (t : TaskView) (ht : t ∈ tasks) :
    (propagate p tasks).completionPercentage
        = mathRound (100 * (completedCount tasks : ℚ) / (tasks.length : ℚ))
      ∧ (tasks = [] → (propagate p tasks).completionPercentage = 0) := by
  have hne : tasks ≠ [] := by rintro rfl; cases ht
  have hlen : tasks.length > 0 := List.length_pos.mpr hne
  exact ⟨propagate_pct_formula p tasks hlen, fun h => absurd h hne⟩

theorem C1_completion_percentage_witness :
    (⟨"assigned"⟩ : TaskView) ∈ [⟨"completed"⟩, ⟨"assigned"⟩, ⟨"assigned"⟩, (⟨"assigned"⟩ : TaskView)] ∧
    (propagate ⟨"Planning", 0, 0, 0⟩ [⟨"completed"⟩, ⟨"assigned"⟩, ⟨"assigned"⟩, ⟨"assigned"⟩]).completionPercentage
        = mathRound (100 * (completedCount [⟨"completed"⟩, ⟨"assigned"⟩, ⟨"assigned"⟩, ⟨"assigned"⟩] : ℚ)
            / (([⟨"completed"⟩, ⟨"assigned"⟩, ⟨"assigned"⟩, (⟨"assigned"⟩ : TaskView)].length : ℕ) : ℚ))
      ∧ ([(⟨"completed"⟩ : TaskView), ⟨"assigned"⟩, ⟨"assigned"⟩, ⟨"assigned"⟩] = [] →
          (propagate ⟨"Planning", 0, 0, 0⟩ [⟨"completed"⟩, ⟨"assigned"⟩, ⟨"assigned"⟩, ⟨"assigned"⟩]).completionPercentage = 0) := by
  refine ⟨by simp, C1_completion_percentage _ _ ⟨"assigned"⟩ (by simp)⟩

/-- C2 counterexample: a project in `"Delayed"` status with one of two tasks
completed is moved to `"In Progress"` by the engine (the claim says delayed
is sticky), and with zero tasks completed it is moved to `"Planning"`
(the claim says the status is left unchanged). -/
theorem C2_status_decision_counterexample :
    (propagate ⟨"Delayed", 0, 2, 0⟩ [⟨"completed"⟩, ⟨"assigned"⟩]).status = "In Progress"
      ∧ (propagate ⟨"Delayed", 0, 2, 0⟩ [⟨"assigned"⟩, ⟨"assigned"⟩]).status = "Planning" := by
  exact ⟨rfl, rfl⟩

/-- C2 amended: in the status decision of the propagation engine, when not all
tasks are completed but at least one is, the project status is set to
`"In Progress"` regardless of its previous value (delayed and on-hold are
overridden, not sticky); and when no task is completed the status is set to
`"Planning"` regardless of its previous value. -/
theorem C2_status_decision (p : ProjView) (tasks : List TaskView)
    (hlen : 0 < tasks.length) :
    (0 < completedCount tasks → completedCount tasks < tasks.length →
        (propagate p tasks).status = "In Progress")
      ∧ (completedCount tasks = 0 → (propagate p tasks).status = "Planning") := by
  constructor
  · intro h0 hlt
    simp only [propagate]
    rw [if_pos hlen]
    have hne : ¬ ((tasks.filter (fun t => t.status == "completed")).length = tasks.length) := by
      simpa [completedCount] using Nat.ne_of_lt hlt
    have hpos : (tasks.filter (fun t => t.status == "completed")).length > 0 := by
      simpa [completedCount] using h0
    simp only [if_neg hne, if_pos hpos]
    split_ifs with hstat
    · rfl
    · push_neg at hstat
      simp [← hstat]
  · intro h0
    have h0' : (tasks.filter (fun t => t.status == "completed")).length = 0 := by
      simpa [completedCount] using h0
    simp only [propagate]
    rw [if_pos hlen, h0']
    rw [if_neg (show ¬ ((0 : ℕ) = tasks.length) by omega),
      if_neg (show ¬ ((0 : ℕ) > 0) by omega)]
    split_ifs with hstat
    · rfl
    · push_neg at hstat
      simp [← hstat]

theorem C2_status_decision_witness :
    0 < ([(⟨"completed"⟩ : TaskView), ⟨"assigned"⟩] : List TaskView).length ∧
    ((0 < completedCount [⟨"completed"⟩, ⟨"assigned"⟩] →
        completedCount [⟨"completed"⟩, ⟨"assigned"⟩] < ([(⟨"completed"⟩ : TaskView), ⟨"assigned"⟩] : List TaskView).length →
        (propagate ⟨"On Hold", 0, 2, 0⟩ [⟨"completed"⟩, ⟨"assigned"⟩]).status = "In Progress")
      ∧ (completedCount [(⟨"completed"⟩ : TaskView), ⟨"assigned"⟩] = 0 →
          (propagate ⟨"On Hold", 0, 2, 0⟩ [⟨"completed"⟩, ⟨"assigned"⟩]).status = "Planning")) :=
  ⟨by simp, C2_status_decision ⟨"On Hold", 0, 2, 0⟩ [⟨"completed"⟩, ⟨"assigned"⟩] (by simp)⟩

/-! ## Presence registry

`SocketServer` keeps `this.connectedUsers = new Map()`, a JavaScript `Map`
from a user id to a single socket id.  A `Map` is modelled as an association
list whose `set` replaces the existing entry for the key. -/

/-- JavaScript `Map.prototype.set`: replace the value under `k` if the key is
present, otherwise append the entry. -/
def mapSet (m : List (String × String)) (k v : String) : List (String × String) :=
  if m.any (fun e => e.1 == k) then
    m.map (fun e => if e.1 == k then (k, v) else e)
  else m ++ [(k, v)]

/-- JavaScript `Map.prototype.get`. -/
def mapGet (m : List (String × String)) (k : String) : Option String :=
  (m.find? (fun e => e.1 == k)).map (fun e => e.2)

/-- JavaScript `Map.prototype.delete`. -/
def mapDelete (m : List (String × String)) (k : String) : List (String × String) :=
  m.filter (fun e => e.1 != k)

/-- The `connection` handler:
`this.connectedUsers.set(socket.userId, socket.id)`. -/
def registerPresence (m : List (String × String)) (userId socketId : String) :
    List (String × String) :=
  mapSet m userId socketId

/-- The `disconnect` handler:
`this.connectedUsers.delete(socket.userId)`.  The handle of the
disconnecting socket is not consulted, only the user id. -/
def unregisterPresence (m : List (String × String)) (userId : String)
    ( _socketId : String) : List (String × String) :=
  mapDelete m userId

/-- `sendNotificationToUser` treats a user as present when
`this.connectedUsers.get(userId)` yields a socket id. -/
def isPresent (m : List (String × String)) (userId : String) : Bool :=
  (mapGet m userId).isSome

theorem mapGet_mapDelete (m : List (String × String)) (k : String) :
    mapGet (mapDelete m k) k = none := by
  have h : (mapDelete m k).find? (fun e => e.1 == k) = none := by
    rw [List.find?_eq_none]
    intro e he
    have h2 : e ∈ m ∧ ¬ e.1 = k := by simpa [mapDelete] using he
    simpa using h2.2
  rw [mapGet, h]
  rfl

/-- C5 counterexample: with two registrations for the same user, the second
overwrites the first, and the disconnect of the first handle deletes the
whole entry of the user, so `isPresent` is `false` where the claim requires
`true`. -/
theorem C5_registry_counterexample :
    isPresent
      (unregisterPresence
        (registerPresence (registerPresence [] "U" "h1") "U" "h2") "U" "h1")
      "U" = false := by
  rfl

/-- C5 amended: the registry maps a user identity to at most one (the most
recent) connection handle, and unregistration removes the entry of the user
regardless of which handle disconnects: after `register(U,h)` then
`unregister(U,h)`, `isPresent U` is false, and after `register(U,h1)`,
`register(U,h2)`, `unregister(U,h1)`, `isPresent U` is also false. -/
theorem C5_registry (m : List (String × String)) (u h1 h2 h' : String) :
    isPresent (unregisterPresence (registerPresence m u h1) u h') u = false
      ∧ isPresent
          (unregisterPresence
            (registerPresence (registerPresence m u h1) u h2) u h') u = false := by
  constructor <;>
    simp [isPresent, unregisterPresence, mapGet_mapDelete]

/-! ## Notification dispatcher

`SocketServer.sendNotificationToUser` persists a `Notification` document via
`Notification.create`, then emits `notification:new` to the socket of the target
when the user id is in `connectedUsers`, and returns the saved document.
Persistence may fail (schema validation, connectivity); that is modelled by
a `persistFails` predicate on the target user id.  Effects are recorded in
an ordered event trace. -/

/-- A persisted `Notification` document.  `id` and `createdAt` are the
identity and timestamp the store generates on `create`; `none` models a
missing value. -/
structure NotificationDoc where
  id : Option ℕ
  userId : String
  title : String
  message : String
  ntype : String
  priority : String
  category : String
  createdAt : Option ℕ
deriving Repr, DecidableEq

/-- The `notification` argument of `sendNotificationToUser`:
`type` / `priority` / `category` are optional and defaulted with `||`. -/
structure NotificationPayload where
  title : String
  message : String
  ntype : Option String
  priority : Option String
  category : Option String
deriving Repr, DecidableEq

/-- One observable effect of the dispatcher. -/
inductive SocketEvent
  | persist (n : NotificationDoc)
  | push (socketId : String) (n : NotificationDoc)
deriving Repr, DecidableEq

/-- Dispatcher-visible state: the presence map, the notification collection,
the id and clock generators of the store, and the ordered effect trace. -/
structure SocketState where
  connectedUsers : List (String × String)
  db : List NotificationDoc
  nextId : ℕ
  now : ℕ
  events : List SocketEvent
deriving Repr, DecidableEq

/-- `SocketServer.sendNotificationToUser(userId, notification)`:
`Notification.create` first (rethrowing its failure), then
`this.connectedUsers.get(userId)` and, when a socket id is found,
`io.to(socketId).emit("notification:new", ...)`; the saved document is
returned whether or not the user was connected. -/
def sendNotificationToUser (persistFails : String → Bool) (st : SocketState)
    (userId : String) (notification : NotificationPayload) :
    SocketState × Except String NotificationDoc :=
  if persistFails userId then
    (st, .error "Error sending notification to user")
  else
    let savedNotification : NotificationDoc :=
      { id := some st.nextId
        userId := userId
        title := notification.title
        message := notification.message
        ntype := notification.ntype.getD "info"
        priority := notification.priority.getD "medium"
        category := notification.category.getD "general"
        createdAt := some st.now }
    let st1 : SocketState :=
      { st with db := st.db ++ [savedNotification]
                nextId := st.nextId + 1
                events := st.events ++ [.persist savedNotification] }
    match mapGet st.connectedUsers userId with
    | some socketId =>
        ({ st1 with events := st1.events ++ [.push socketId savedNotification] },
          .ok savedNotification)
    | none => (st1, .ok savedNotification)

/-- `SocketServer.sendNotificationToUsers(userIds, notification)`:
`userIds.map(...)` starts one independent send per target (persistence is
attempted for every target whatever happens to the others), and `Promise.all`
yields the list of saved documents when all succeed and otherwise raises the
first failure. -/
def sendNotificationToUsers (persistFails : String → Bool) (st : SocketState)
    (userIds : List String) (notification : NotificationPayload) :
    SocketState × Except String (List NotificationDoc) :=
  match userIds with
  | [] => (st, .ok [])
  | u :: rest =>
    let r := sendNotificationToUser persistFails st u notification
    let rs := sendNotificationToUsers persistFails r.1 rest notification
    (rs.1,
      match r.2, rs.2 with
      | .ok n, .ok ns => .ok (n :: ns)
      | .error e, _ => .error e
      | .ok _, .error e => .error e)

theorem send_user_failure (persistFails : String → Bool) (st : SocketState)
    (u : String) (payload : NotificationPayload) (h : persistFails u = true) :
    sendNotificationToUser persistFails st u payload
      = (st, .error "Error sending notification to user") := by
  simp [sendNotificationToUser, h]

theorem send_user_success (persistFails : String → Bool) (st : SocketState)
    (u : String) (payload : NotificationPayload) (h : persistFails u = false) :
    ∃ n : NotificationDoc,
      (sendNotificationToUser persistFails st u payload).1.db = st.db ++ [n]
        ∧ (sendNotificationToUser persistFails st u payload).2 = .ok n
        ∧ n.userId = u ∧ n.id.isSome ∧ n.createdAt.isSome := by
  refine ⟨{ id := some st.nextId
            userId := u
            title := payload.title
            message := payload.message
            ntype := payload.ntype.getD "info"
            priority := payload.priority.getD "medium"
            category := payload.category.getD "general"
            createdAt := some st.now }, ?_⟩
  unfold sendNotificationToUser
  cases hm : mapGet st.connectedUsers u <;> simp [h, hm]

theorem send_user_db_mono (persistFails : String → Bool) (st : SocketState)
    (u : String) (payload : NotificationPayload) (n : NotificationDoc)
    (h : n ∈ st.db) :
    n ∈ (sendNotificationToUser persistFails st u payload).1.db := by
  unfold sendNotificationToUser
  by_cases hf : persistFails u
  · simp [hf, h]
  · cases hm : mapGet st.connectedUsers u <;> simp [hf, hm, h]

theorem send_users_db_mono (persistFails : String → Bool)
    (payload : NotificationPayload) (userIds : List String) :
    ∀ (st : SocketState) (n : NotificationDoc), n ∈ st.db →
      n ∈ (sendNotificationToUsers persistFails st userIds payload).1.db := by
  induction userIds with
  | nil => intro st n h; simpa [sendNotificationToUsers] using h
  | cons u rest ih =>
    intro st n h
    simp only [sendNotificationToUsers]
    exact ih _ _ (send_user_db_mono _ _ _ _ _ h)

theorem send_users_persists (persistFails : String → Bool)
    (payload : NotificationPayload) (userIds : List String) :
    ∀ (st : SocketState) (u : String), u ∈ userIds → persistFails u = false →
      ∃ n : NotificationDoc,
        n ∈ (sendNotificationToUsers persistFails st userIds payload).1.db
          ∧ n.userId = u ∧ n.id.isSome ∧ n.createdAt.isSome := by
  induction userIds with
  | nil => intro st u hu _; cases hu
  | cons v rest ih =>
    intro st u hu hf
    simp only [sendNotificationToUsers]
    rcases List.mem_cons.mp hu with rfl | hu'
    · obtain ⟨n, hdb, _, huid, hid, hca⟩ := send_user_success persistFails st u payload hf
      refine ⟨n, ?_, huid, hid, hca⟩
      apply send_users_db_mono
      rw [hdb]
      simp
    · exact ih _ u hu' hf

theorem send_users_error (persistFails : String → Bool)
    (payload : NotificationPayload) (userIds : List String) :
    ∀ (st : SocketState) (v : String), v ∈ userIds → persistFails v = true →
      ∃ e, (sendNotificationToUsers persistFails st userIds payload).2 = .error e := by
  induction userIds with
  | nil => intro st v hv _; cases hv
  | cons u rest ih =>
    intro st v hv hf
    simp only [sendNotificationToUsers]
    rcases List.mem_cons.mp hv with rfl | hv'
    · rw [send_user_failure persistFails st v payload hf]
      cases hrs : (sendNotificationToUsers persistFails
          (st, Except.error "Error sending notification to user").1 rest payload).2 <;>
        simp [hrs]
    · obtain ⟨e, he⟩ := ih (sendNotificationToUser persistFails st u payload).1 v hv' hf
      rw [he]
      cases hr : (sendNotificationToUser persistFails st u payload).2 <;> simp

/-- C3: when persistence succeeds, `sendNotificationToUser` records the
notification in the store before any push, pushes it only when the target is
in the presence registry, and returns the persisted record — carrying the
generated identity and creation timestamp — whether or not the target was
connected. -/
theorem C3_notifyUser (persistFails : String → Bool) (st : SocketState)
    (userId : String) (payload : NotificationPayload)
    (h : persistFails userId = false) :
    ∃ n : NotificationDoc,
      (sendNotificationToUser persistFails st userId payload).2 = .ok n
        ∧ n ∈ (sendNotificationToUser persistFails st userId payload).1.db
        ∧ n.id.isSome ∧ n.createdAt.isSome
        ∧ (sendNotificationToUser persistFails st userId payload).1.events
            = st.events ++ [.persist n]
                ++ (match mapGet st.connectedUsers userId with
                    | some socketId => [SocketEvent.push socketId n]
                    | none => []) := by
  refine ⟨{ id := some st.nextId
            userId := userId
            title := payload.title
            message := payload.message
            ntype := payload.ntype.getD "info"
            priority := payload.priority.getD "medium"
            category := payload.category.getD "general"
            createdAt := some st.now }, ?_⟩
  unfold sendNotificationToUser
  cases hm : mapGet st.connectedUsers userId <;> simp [h, hm]

theorem C3_notifyUser_witness :
    (fun (_ : String) => false) "U" = false ∧
    ∃ n : NotificationDoc,
      (sendNotificationToUser (fun _ => false)
          ⟨[("U", "s1")], [], 7, 42, []⟩ "U" ⟨"t", "m", none, none, none⟩).2 = .ok n
        ∧ n ∈ (sendNotificationToUser (fun _ => false)
            ⟨[("U", "s1")], [], 7, 42, []⟩ "U" ⟨"t", "m", none, none, none⟩).1.db
        ∧ n.id.isSome ∧ n.createdAt.isSome
        ∧ (sendNotificationToUser (fun _ => false)
            ⟨[("U", "s1")], [], 7, 42, []⟩ "U" ⟨"t", "m", none, none, none⟩).1.events
            = ([] : List SocketEvent) ++ [.persist n]
                ++ (match mapGet ([("U", "s1")]) "U" with
                    | some socketId => [SocketEvent.push socketId n]
                    | none => []) :=
  ⟨rfl, C3_notifyUser (fun _ => false) ⟨[("U", "s1")], [], 7, 42, []⟩ "U"
    ⟨"t", "m", none, none, none⟩ rfl⟩

/-- C4 counterexample: with targets `[A, B, C]` where persistence fails only
for `B`, the fan-out call rejects with the (single, first) failure instead of
returning collected per-target results — while `A` and `C` are nonetheless
persisted. -/
theorem C4_fanout_counterexample :
    (sendNotificationToUsers (fun u => u == "B") ⟨[], [], 0, 0, []⟩
        ["A", "B", "C"] ⟨"t", "m", none, none, none⟩).2
      = .error "Error sending notification to user"
    ∧ ((sendNotificationToUsers (fun u => u == "B") ⟨[], [], 0, 0, []⟩
        ["A", "B", "C"] ⟨"t", "m", none, none, none⟩).1.db.map
          (fun n => n.userId)) = ["A", "C"] := by
  exact ⟨rfl, rfl⟩

/-- C4 amended: each target of `sendNotificationToUsers` is attempted
independently — a persistence failure for one target does not prevent any
non-failing target from ending with a persisted notification (with identity
and timestamp) — but when any target fails the result of the call rejects with a
failure instead of returning collected per-target results. -/
theorem C4_fanout_isolated_failure (persistFails : String → Bool)
    (st : SocketState) (userIds : List String) (payload : NotificationPayload)
    (u : String) (hu : u ∈ userIds) (hf : persistFails u = false) :
    (∃ n : NotificationDoc,
        n ∈ (sendNotificationToUsers persistFails st userIds payload).1.db
          ∧ n.userId = u ∧ n.id.isSome ∧ n.createdAt.isSome)
      ∧ (∀ v, v ∈ userIds → persistFails v = true →
          ∃ e, (sendNotificationToUsers persistFails st userIds payload).2
            = .error e) :=
  ⟨send_users_persists persistFails payload userIds st u hu hf,
   fun v hv hfv => send_users_error persistFails payload userIds st v hv hfv⟩

theorem C4_fanout_isolated_failure_witness :
    "A" ∈ ["A", "B", "C"] ∧ (fun u => u == "B") "A" = false ∧
    ((∃ n : NotificationDoc,
        n ∈ (sendNotificationToUsers (fun u => u == "B") ⟨[], [], 0, 0, []⟩
            ["A", "B", "C"] ⟨"t", "m", none, none, none⟩).1.db
          ∧ n.userId = "A" ∧ n.id.isSome ∧ n.createdAt.isSome)
      ∧ (∀ v, v ∈ ["A", "B", "C"] → (fun u => u == "B") v = true →
          ∃ e, (sendNotificationToUsers (fun u => u == "B") ⟨[], [], 0, 0, []⟩
              ["A", "B", "C"] ⟨"t", "m", none, none, none⟩).2 = .error e)) :=
  ⟨by simp, rfl,
   C4_fanout_isolated_failure (fun u => u == "B") ⟨[], [], 0, 0, []⟩
     ["A", "B", "C"] ⟨"t", "m", none, none, none⟩ "A" (by simp) rfl⟩

/-! ## Real-time handshake authentication

`SocketServer.setupMiddleware` extracts a token from the handshake
(`auth.token`, the `authorization` header with the "Bearer " prefix stripped, the
`token` query parameter, or `auth.authorization`), verifies it, looks the
decoded id up in the `User` collection, and refuses the connection on a
missing token, a failed verification, or an unknown user.  Only on success
does the `connection` handler run, adding the presence entry and joining the
per-user and per-role rooms. -/

/-- A `User` document as the handshake middleware reads it. -/
structure UserDoc where
  id : String
  name : String
  role : String
  isActive : Bool
deriving Repr, DecidableEq

/-- The credential-bearing parts of `socket.handshake`. -/
structure Handshake where
  authToken : Option String
  headerAuthorization : Option String
  queryToken : Option String
  authAuthorization : Option String
deriving Repr, DecidableEq

/-- JavaScript `a || b` over possibly-absent strings: an absent or empty
left operand falls through to the right operand. -/
def jsOr (a b : Option String) : Option String :=
  match a with
  | some s => if s == "" then b else some s
  | none => b

/-- `.replace("Bearer ", "")` on an authorization value. -/
def stripBearer (s : String) : String := s.replace "Bearer " ""

/-- The token-extraction chain of the middleware. -/
def extractToken (h : Handshake) : Option String :=
  jsOr h.authToken
    (jsOr (h.headerAuthorization.map stripBearer)
      (jsOr h.queryToken (h.authAuthorization.map stripBearer)))

/-- The authentication middleware: `jwt.verify` is modelled by a `verify`
function returning the decoded user id (`none` for a throw), and
`User.findById` by a lookup in the user list.  The middleware does not
consult `isActive`. -/
def socketAuth (verify : String → Option String) (users : List UserDoc)
    (h : Handshake) : Except String UserDoc :=
  match extractToken h with
  | none => .error "Authentication error: No token provided"
  | some token =>
    match verify token with
    | none => .error "Authentication error: Invalid token"
    | some uid =>
      match users.find? (fun u => u.id == uid) with
      | none => .error "Authentication error: User not found"
      | some user => .ok user

/-- Presence map plus room memberships `(roomName, socketId)`. -/
structure TransportState where
  connectedUsers : List (String × String)
  rooms : List (String × String)
deriving Repr, DecidableEq

/-- A connection attempt: when the middleware refuses, the `connection`
handler never runs, so no state is touched; when it accepts, the handler
stores the presence entry and joins `user:<id>` and `role:<role>`. -/
def handleConnectionAttempt (verify : String → Option String)
    (users : List UserDoc) (st : TransportState) (h : Handshake)
    (socketId : String) : TransportState × Except String Unit :=
  match socketAuth verify users h with
  | .error e => (st, .error e)
  | .ok user =>
    ({ connectedUsers := mapSet st.connectedUsers user.id socketId
       rooms := st.rooms
         ++ [("user:" ++ user.id, socketId), ("role:" ++ user.role, socketId)] },
      .ok ())

/-- C8 counterexample: a valid token for an existing but deactivated user is
accepted by the handshake — the middleware never checks the active flag — so
the connection joins rooms and creates a presence entry where the claim
requires a refusal. -/
theorem C8_deactivated_accepted_counterexample :
    (handleConnectionAttempt (fun t => if t == "tok" then some "u1" else none)
        [⟨"u1", "Dana", "manager", false⟩] ⟨[], []⟩
        ⟨some "tok", none, none, none⟩ "s1").2 = .ok ()
    ∧ isPresent (handleConnectionAttempt
          (fun t => if t == "tok" then some "u1" else none)
          [⟨"u1", "Dana", "manager", false⟩] ⟨[], []⟩
          ⟨some "tok", none, none, none⟩ "s1").1.connectedUsers "u1" = true := by
  exact ⟨rfl, rfl⟩

/-- C8 amended: a connection whose credential is missing, malformed, or
identifies a user who no longer exists is refused before any room join, and
a refused connection creates no state; the handshake does not check whether
the user is deactivated, so a deactivated user with a valid credential is
accepted. -/
theorem C8_handshake_refusals (verify : String → Option String)
    (users : List UserDoc) (st : TransportState) (h : Handshake)
    (socketId : String) :
    (extractToken h = none →
        handleConnectionAttempt verify users st h socketId
          = (st, .error "Authentication error: No token provided"))
    ∧ (∀ token, extractToken h = some token → verify token = none →
        handleConnectionAttempt verify users st h socketId
          = (st, .error "Authentication error: Invalid token"))
    ∧ (∀ token uid, extractToken h = some token → verify token = some uid →
        users.find? (fun u => u.id == uid) = none →
        handleConnectionAttempt verify users st h socketId
          = (st, .error "Authentication error: User not found")) := by
  refine ⟨?_, ?_, ?_⟩
  · intro h1
    simp [handleConnectionAttempt, socketAuth, h1]
  · intro token h1 h2
    simp [handleConnectionAttempt, socketAuth, h1, h2]
  · intro token uid h1 h2 h3
    simp [handleConnectionAttempt, socketAuth, h1, h2, h3]

theorem C8_handshake_refusals_witness :
    extractToken ⟨none, none, none, none⟩ = none ∧
    handleConnectionAttempt (fun _ => none) [] ⟨[("x", "s0")], []⟩
        ⟨none, none, none, none⟩ "s1"
      = (⟨[("x", "s0")], []⟩, .error "Authentication error: No token provided") :=
  ⟨rfl,
   (C8_handshake_refusals (fun _ => none) [] ⟨[("x", "s0")], []⟩
      ⟨none, none, none, none⟩ "s1").1 rfl⟩

/-! ## Task schema pre-save hook

The task pre-save hook syncs the duplicate date fields, auto-sets
completion/start dates, and derives `progress` from the (lower-cased)
status.  `isModified(...)` flags are explicit inputs.  The JS `switch` is an
equality chain on `status.toLowerCase()`. -/

/-- The fields of a `Task` document the pre-save hook reads or writes. -/
structure TaskSaveDoc where
  status : String
  progress : ℕ
  deadline : Option ℕ
  dueDate : Option ℕ
  startedDate : Option ℕ
  completedDate : Option ℕ
  completedAt : Option ℕ
deriving Repr, DecidableEq

/-- The `isModified` flags consulted by the hook. -/
structure TaskModifiedFlags where
  deadline : Bool
  dueDate : Bool
  completedDate : Bool
  completedAt : Bool
  status : Bool
deriving Repr, DecidableEq

/-- Date-synchronization block of the hook: `deadline`/`dueDate` and
`completedDate`/`completedAt` mirroring. -/
def syncDates (t : TaskSaveDoc) (m : TaskModifiedFlags) : TaskSaveDoc :=
  let t1 :=
    if m.deadline && !m.dueDate then { t with dueDate := t.deadline }
    else if m.dueDate && !m.deadline then { t with deadline := t.dueDate }
    else t
  if m.completedDate && !m.completedAt then
    { t1 with completedAt := t1.completedDate }
  else if m.completedAt && !m.completedDate then
    { t1 with completedDate := t1.completedAt }
  else t1

/-- Completion block of the hook: on a status change to a completed variant,
stamp the completion dates when absent and force `progress = 100`. -/
def autoCompletion (t : TaskSaveDoc) (m : TaskModifiedFlags) (now : ℕ) :
    TaskSaveDoc :=
  if m.status && (t.status == "completed" || t.status == "Completed") then
    let t3a :=
      if t.completedDate == none && t.completedAt == none then
        { t with completedDate := some now, completedAt := some now }
      else t
    { t3a with progress := 100 }
  else t

/-- Start block of the hook: on a status change to an in-progress variant,
stamp `startedDate` when absent. -/
def autoStart (t : TaskSaveDoc) (m : TaskModifiedFlags) (now : ℕ) :
    TaskSaveDoc :=
  if m.status && (t.status == "in_progress" || t.status == "In Progress") then
    (if t.startedDate == none then { t with startedDate := some now } else t)
  else t

/-- `String.prototype.toLowerCase()` over the character sequence. -/
def jsToLower (s : String) : String := ⟨s.data.map Char.toLower⟩

/-- The `switch (this.status.toLowerCase())` block of the hook, deriving
`progress` from the status. -/
def progressFromStatus (t : TaskSaveDoc) (m : TaskModifiedFlags) :
    TaskSaveDoc :=
  if m.status then
    let s := jsToLower t.status
    if s == "assigned" || s == "pending" then { t with progress := 0 }
    else if s == "in_progress" || s == "in progress" then
      (if t.progress == 0 then { t with progress := 25 } else t)
    else if s == "completed" then { t with progress := 100 }
    else t
  else t

/-- The task pre-save hook: the four blocks in source order. -/
def taskPreSave (t : TaskSaveDoc) (m : TaskModifiedFlags) (now : ℕ) :
    TaskSaveDoc :=
  progressFromStatus (autoStart (autoCompletion (syncDates t m) m now) m now) m

/-! ## Technician task-status route

`router.put("/tasks/:taskId/status")`: look the task up by id and assignee,
reject a delayed status without a non-empty delay reason, apply the update
document through `findByIdAndUpdate` (which runs no save hook), ensure the
task id is in the `tasks` array of the parent project (a `save` whose pre-save
hook syncs `tasksCount`), run the propagation block, and emit
`task_status_updated` to the room of the assigning manager and the `superadmin`
room. -/

/-- An entry of the `statusLog` audit trail of a task. -/
structure StatusLogEntry where
  status : String
  updatedBy : String
  timestamp : ℕ
  comment : Option String
  files : List String
  delayReason : Option String
deriving Repr, DecidableEq

/-- A `Task` document as the route reads and writes it. -/
structure TaskDoc where
  id : ℕ
  project : ℕ
  assignedTo : String
  assignedBy : String
  status : String
  progress : ℕ
  delayReason : Option String
  startedDate : Option ℕ
  completedDate : Option ℕ
  comments : List (String × String)
  statusLog : List StatusLogEntry
deriving Repr, DecidableEq

/-- A `Project` document: its id, the derived fields the engine writes, and
the hand-maintained `tasks` reference array. -/
structure ProjectDoc where
  pid : ℕ
  view : ProjView
  taskRefs : List ℕ
deriving Repr, DecidableEq

/-- Route-visible state: both collections, the socket emissions
`(room, eventName)`, and the clock. -/
structure RouteState where
  tasks : List TaskDoc
  projects : List ProjectDoc
  emitted : List (String × String)
  now : ℕ
deriving Repr, DecidableEq

inductive RouteResponse
  | ok200
  | notFound404
  | badRequest400 (message : String)
deriving Repr, DecidableEq

/-- `String.prototype.trim()`: drop whitespace from both ends of the
character sequence. -/
def jsTrim (s : String) : String :=
  ⟨((s.data.dropWhile Char.isWhitespace).reverse.dropWhile
      Char.isWhitespace).reverse⟩

/-- The handler body of `router.put("/tasks/:taskId/status")`. -/
def updateTaskStatusRoute (st : RouteState) (techId : String) (taskId : ℕ)
    (status : String) (comment : Option String) (files : List String)
    (delayReason : Option String) : RouteState × RouteResponse :=
  match st.tasks.find? (fun t => t.id == taskId && t.assignedTo == techId) with
  | none => (st, .notFound404)
  | some task =>
    if status == "delayed" && jsTrim (delayReason.getD "") == "" then
      (st, .badRequest400 "Delay reason is required when reporting delay.")
    else
      let startedDate :=
        if status == "in_progress" && task.startedDate == none then some st.now
        else task.startedDate
      let completedDate :=
        if status == "completed" then some st.now else task.completedDate
      let progress := if status == "completed" then 100 else task.progress
      -- `updateData.delayReason = undefined` is stripped from the update by
      -- the ODM, so a non-delayed status leaves the stored reason in place
      let newDelayReason :=
        if status == "delayed" then delayReason else task.delayReason
      let logEntry : StatusLogEntry :=
        { status := status, updatedBy := techId, timestamp := st.now
          comment := comment, files := files
          delayReason := if status == "delayed" then delayReason else none }
      let updatedTask : TaskDoc :=
        { task with status := status, startedDate := startedDate
                    completedDate := completedDate, progress := progress
                    delayReason := newDelayReason
                    comments := task.comments
                      ++ (match comment with
                          | some c => [(c, techId)]
                          | none => [])
                    statusLog := task.statusLog ++ [logEntry] }
      let tasks1 := st.tasks.map (fun t => if t.id == taskId then updatedTask else t)
      match st.projects.find? (fun p => p.pid == task.project) with
      | none =>
        ({ st with tasks := tasks1
                   emitted := st.emitted
                     ++ [("user_" ++ task.assignedBy, "task_status_updated"),
                         ("superadmin", "task_status_updated")] }, .ok200)
      | some parentProject =>
        let parent1 :=
          if parentProject.taskRefs.contains task.id then parentProject
          else
            { parentProject with
                taskRefs := parentProject.taskRefs ++ [task.id]
                view := { parentProject.view with
                            tasksCount := (parentProject.taskRefs ++ [task.id]).length } }
        let allProjectTasks := tasks1.filter (fun t => t.project == parentProject.pid)
        let view1 := propagate parent1.view (allProjectTasks.map (fun t => ⟨t.status⟩))
        let projects1 := st.projects.map (fun p =>
          if p.pid == parentProject.pid then { parent1 with view := view1 } else p)
        ({ st with tasks := tasks1, projects := projects1
                   emitted := st.emitted
                     ++ [("user_" ++ task.assignedBy, "task_status_updated"),
                         ("superadmin", "task_status_updated")] }, .ok200)

/-- C6: a technician request setting the status of a task to `"delayed"`
without a non-empty delay reason is rejected with a 400 error and the state
is returned untouched: the task is not updated, no project recompute runs,
and nothing is emitted. -/
theorem C6_delay_reason_required (st : RouteState) (techId : String)
    (taskId : ℕ) (comment : Option String) (files : List String)
    (delayReason : Option String) (task : TaskDoc)
    (hfound : st.tasks.find? (fun t => t.id == taskId && t.assignedTo == techId)
      = some task)
    (hreason : jsTrim (delayReason.getD "") = "") :
    updateTaskStatusRoute st techId taskId "delayed" comment files delayReason
      = (st, .badRequest400 "Delay reason is required when reporting delay.") := by
  simp [updateTaskStatusRoute, hfound, hreason]

theorem C6_delay_reason_required_witness :
    ([(⟨1, 1, "tech1", "mgr1", "in_progress", 25, none, some 3, none, [], []⟩ : TaskDoc)].find?
        (fun t => t.id == 1 && t.assignedTo == "tech1")
      = some ⟨1, 1, "tech1", "mgr1", "in_progress", 25, none, some 3, none, [], []⟩)
    ∧ jsTrim ((some "   " : Option String).getD "") = ""
    ∧ updateTaskStatusRoute
        ⟨[⟨1, 1, "tech1", "mgr1", "in_progress", 25, none, some 3, none, [], []⟩],
          [⟨1, ⟨"In Progress", 0, 1, 0⟩, [1]⟩], [], 9⟩
        "tech1" 1 "delayed" none [] (some "   ")
      = (⟨[⟨1, 1, "tech1", "mgr1", "in_progress", 25, none, some 3, none, [], []⟩],
          [⟨1, ⟨"In Progress", 0, 1, 0⟩, [1]⟩], [], 9⟩,
         .badRequest400 "Delay reason is required when reporting delay.") :=
  ⟨rfl, rfl,
   C6_delay_reason_required
     ⟨[⟨1, 1, "tech1", "mgr1", "in_progress", 25, none, some 3, none, [], []⟩],
       [⟨1, ⟨"In Progress", 0, 1, 0⟩, [1]⟩], [], 9⟩
     "tech1" 1 none [] (some "   ")
     ⟨1, 1, "tech1", "mgr1", "in_progress", 25, none, some 3, none, [], []⟩
     rfl rfl⟩

/-- C7 counterexample: a completed task (progress 100) whose assignee
reports a delay keeps progress 100 while its status becomes `"delayed"`
(the update document of the route never touches `progress` for a delayed status,
and `findByIdAndUpdate` runs no save hook) — so `progress = 100` holds with
`status ≠ completed`, refuting the iff. -/
theorem C7_progress_iff_counterexample :
    (((updateTaskStatusRoute
          ⟨[⟨1, 1, "tech1", "mgr1", "completed", 100, none, some 1, some 2, [], []⟩],
            [⟨1, ⟨"Completed", 1, 1, 100⟩, [1]⟩], [], 9⟩
          "tech1" 1 "delayed" none [] (some "supplier delay")).1.tasks.find?
        (fun t => t.id == 1)).map (fun t => (t.status, t.progress)))
      = some ("delayed", 100) := by
  rfl

theorem syncDates_status (t : TaskSaveDoc) (m : TaskModifiedFlags) :
    (syncDates t m).status = t.status := by
  simp only [syncDates]
  split_ifs <;> rfl

theorem autoCompletion_status (t : TaskSaveDoc) (m : TaskModifiedFlags)
    (now : ℕ) : (autoCompletion t m now).status = t.status := by
  simp only [autoCompletion]
  split_ifs <;> rfl

theorem autoStart_status (t : TaskSaveDoc) (m : TaskModifiedFlags) (now : ℕ) :
    (autoStart t m now).status = t.status := by
  simp only [autoStart]
  split_ifs <;> rfl

theorem progressFromStatus_completed (t : TaskSaveDoc) (m : TaskModifiedFlags)
    (hm : m.status = true) (hs : jsToLower t.status = "completed") :
    (progressFromStatus t m).progress = 100 := by
  simp only [progressFromStatus, hm, if_true, hs]
  rfl

theorem progressFromStatus_assigned (t : TaskSaveDoc) (m : TaskModifiedFlags)
    (hm : m.status = true)
    (hs : jsToLower t.status = "assigned" ∨ jsToLower t.status = "pending") :
    (progressFromStatus t m).progress = 0 := by
  rcases hs with hs | hs <;>
  · simp only [progressFromStatus, hm, if_true, hs]
    rfl

/-- C7 amended: the synchronization is one-directional.  After the task
pre-save hook runs on a status modification, a completed status forces
`progress = 100` and an assigned/pending status forces `progress = 0`; the
converses fail (a delayed task keeps whatever progress it had, as the
counterexample shows). -/
theorem C7_progress_sync (t : TaskSaveDoc) (m : TaskModifiedFlags) (now : ℕ)
    (hm : m.status = true) :
    (jsToLower t.status = "completed" → (taskPreSave t m now).progress = 100)
    ∧ ((jsToLower t.status = "assigned" ∨ jsToLower t.status = "pending") →
        (taskPreSave t m now).progress = 0) := by
  have hstat : (autoStart (autoCompletion (syncDates t m) m now) m now).status
      = t.status := by
    rw [autoStart_status, autoCompletion_status, syncDates_status]
  constructor
  · intro hs
    rw [taskPreSave, progressFromStatus_completed _ _ hm (hstat ▸ hs)]
  · intro hs
    rw [taskPreSave, progressFromStatus_assigned _ _ hm
      (by rcases hs with hs | hs <;> [left; right] <;> exact hstat ▸ hs)]

theorem C7_progress_sync_witness :
    (⟨false, false, false, false, true⟩ : TaskModifiedFlags).status = true
    ∧ jsToLower "Completed" = "completed"
    ∧ (taskPreSave ⟨"Completed", 40, none, none, none, none, none⟩
        ⟨false, false, false, false, true⟩ 5).progress = 100 :=
  ⟨rfl, rfl,
   (C7_progress_sync ⟨"Completed", 40, none, none, none, none, none⟩
      ⟨false, false, false, false, true⟩ 5 rfl).1 rfl⟩

/-! ## Project schema pre-save hook -/

/-- The fields of a `Project` document the pre-save hook reads or writes. -/
structure ProjectSaveDoc where
  progress : ℤ
  completionPercentage : ℤ
  tasks : List ℕ
  tasksCount : ℕ
deriving Repr, DecidableEq

/-- The project pre-save hook: mirror `progress` and
`completionPercentage` depending on which was modified, then sync
`tasksCount` with the `tasks` array when the array was modified. -/
def projectPreSave (p : ProjectSaveDoc)
    (progressModified completionModified tasksModified : Bool) :
    ProjectSaveDoc :=
  let p1 :=
    if progressModified && !completionModified then
      { p with completionPercentage := p.progress }
    else if completionModified && !progressModified then
      { p with progress := p.completionPercentage }
    else p
  if tasksModified then { p1 with tasksCount := p1.tasks.length } else p1

/-- C9: a project save in which the `tasks` array was modified leaves
`tasksCount` equal to the length of the `tasks` array. -/
theorem C9_tasksCount_sync (p : ProjectSaveDoc) (pm cm : Bool) :
    (projectPreSave p pm cm true).tasksCount = p.tasks.length := by
  simp only [projectPreSave]
  split_ifs <;> rfl

/-! ## Notification read-state statics -/

/-- A stored `Notification` as the read-state statics see it. -/
structure StoredNotification where
  userId : String
  title : String
  isRead : Bool
  readAt : Option ℕ
deriving Repr, DecidableEq

/-- `notificationSchema.statics.markAllAsRead`:
`updateMany({userId, isRead: false}, {$set: {isRead: true, readAt: now}})`. -/
def markAllAsRead (db : List StoredNotification) (userId : String) (now : ℕ) :
    List StoredNotification :=
  db.map (fun n =>
    if n.userId == userId && n.isRead == false then
      { n with isRead := true, readAt := some now }
    else n)

/-- `notificationSchema.statics.getUnreadCount`:
`countDocuments({userId, isRead: false})`. -/
def getUnreadCount (db : List StoredNotification) (userId : String) : ℕ :=
  (db.filter (fun n => n.userId == userId && n.isRead == false)).length

/-- C10: after `markAllAsRead(u)` the unread count of `u` is zero, and every
stored notification belonging to a different user is untouched (same
document at the same position). -/
theorem C10_markAllAsRead_unread (db : List StoredNotification) (u : String)
    (now : ℕ) :
    getUnreadCount (markAllAsRead db u now) u = 0
    ∧ ∀ (i : ℕ) (n : StoredNotification), db[i]? = some n → n.userId ≠ u →
        (markAllAsRead db u now)[i]? = some n := by
  constructor
  · simp only [getUnreadCount, markAllAsRead]
    induction db with
    | nil => rfl
    | cons n rest ih =>
      simp only [List.map_cons, List.filter_cons]
      by_cases h1 : n.userId == u && n.isRead == false
      · simp only [h1, if_true]
        simpa using ih
      · simp only [h1, if_false]
        rw [if_neg (by simpa using h1)]
        exact ih
  · intro i n hget hne
    have hcond : (n.userId == u && n.isRead == false) = false := by
      simp [hne]
    simp [markAllAsRead, List.getElem?_map, hget, hcond]
    exact fun h => absurd h hne

theorem C10_markAllAsRead_unread_witness :
    getUnreadCount
        (markAllAsRead
          [⟨"a", "t1", false, none⟩, ⟨"b", "t2", false, none⟩,
           ⟨"a", "t3", true, some 1⟩] "a" 5) "a" = 0
    ∧ (([⟨"a", "t1", false, none⟩, ⟨"b", "t2", false, none⟩,
          (⟨"a", "t3", true, some 1⟩ : StoredNotification)] : List StoredNotification)[1]?
          = some ⟨"b", "t2", false, none⟩)
    ∧ ("b" : String) ≠ "a"
    ∧ (markAllAsRead
        [⟨"a", "t1", false, none⟩, ⟨"b", "t2", false, none⟩,
         ⟨"a", "t3", true, some 1⟩] "a" 5)[1]? = some ⟨"b", "t2", false, none⟩ :=
  ⟨(C10_markAllAsRead_unread
      [⟨"a", "t1", false, none⟩, ⟨"b", "t2", false, none⟩,
       ⟨"a", "t3", true, some 1⟩] "a" 5).1,
   rfl, by decide,
   (C10_markAllAsRead_unread
      [⟨"a", "t1", false, none⟩, ⟨"b", "t2", false, none⟩,
       ⟨"a", "t3", true, some 1⟩] "a" 5).2 1 ⟨"b", "t2", false, none⟩ rfl
     (by decide)⟩
